import Mathlib

/-!
Verification of the attach session logic of the CLI
(cli/command/container/attach.go).

The external collaborators of `RunAttach` (the API client, the local streams,
the hijacked connection, the wait channels) are modelled by an oracle
environment `AttachEnv` recording the value each external call returns when it
is reached. `RunAttach` is embedded as a pure function from the environment
and the command options to the ordered trace of observable effects it issues
together with the error it returns (`none` meaning success). Deferred calls
(`resp.Close`, `signal.StopCatch`) are appended at the return point in the
order the Go runtime would run them (last registered first).
-/

/-- Container state fields consulted by the attach command. -/
structure ContainerState where
  Running : Bool
  Paused : Bool
  Restarting : Bool
deriving DecidableEq, Repr

/-- Container config fields consulted by the attach command. -/
structure ContainerConfig where
  Tty : Bool
  OpenStdin : Bool
deriving DecidableEq, Repr

/-- Inspect response: the state and config fields used by attach. -/
structure InspectResponse where
  State : ContainerState
  Config : ContainerConfig
deriving DecidableEq, Repr

/-- Errors the embedded attach command can observe or return: a message error
(errors.New), a status error carrying an exit code (cli.StatusError), the
context cancellation error (context.Canceled), and opaque errors coming back
from the API client or the streams. -/
inductive AttachError where
  | errMsg (s : String)
  | statusError (StatusCode : Int)
  | canceled
  | api (s : String)
deriving DecidableEq, Repr

/-- Recorded error carried inside a wait response. -/
structure WaitExitError where
  Message : String
deriving DecidableEq, Repr

/-- Container wait response: exit status code and optional recorded error. -/
structure WaitResponse where
  StatusCode : Int
  Error : Option WaitExitError
deriving DecidableEq, Repr

/-- Outcome of the select race between the wait-result channel and the error
channel: which of the two resolves first, and with what value. -/
inductive WaitOutcome where
  | result (r : WaitResponse)
  | err (e : AttachError)
deriving DecidableEq, Repr

/-- Context values passed to calls: the session context carries the external
cancellation signal; a detached context is stripped of it. -/
inductive Ctx where
  | session
  | detached
deriving DecidableEq, Repr

/-- Embedding of context.WithoutCancel: strips the cancellation signal. -/
def Ctx.withoutCancel : Ctx → Ctx := fun _ => .detached

/-- Observable effects issued by the attach command, in program order. -/
inductive Event where
  | containerWait (ctx : Ctx)
  | inspect
  | checkTty
  | startSignalForwarder (ctx : Ctx)
  | containerAttach (ctx : Ctx) (detachKeys : String)
  | closeResp
  | stopCatch
  | resizeRequest (height width : Nat)
  | monitorStart
  | stream (hasInput : Bool) (detachKeys : String) (ctx : Ctx)
deriving DecidableEq, Repr

/-- Oracle for the calls RunAttach makes into its collaborators: the value
each external call returns when it is reached. -/
structure AttachEnv where
  inspect1 : Except AttachError InspectResponse
  inspect2 : Except AttachError InspectResponse
  checkTtyErr : Option AttachError
  configDetachKeys : String
  attachErr : Option AttachError
  outIsTerminal : Bool
  ttyHeight : Nat
  ttyWidth : Nat
  streamErr : Option AttachError
  waitOutcome : WaitOutcome
deriving Repr

/-- Options of the attach command. -/
structure AttachOptions where
  NoStdin : Bool
  Proxy : Bool
  DetachKeys : String
deriving DecidableEq, Repr

/-- Embedding of inspectContainerAndCheckState: given the result of the
ContainerInspect call, checks that the container is running, not paused and
not restarting, and returns the inspect response on success. -/
def inspectContainerAndCheckState (inspected : Except AttachError InspectResponse) :
    Except AttachError InspectResponse :=
  match inspected with
  | .error e => .error e
  | .ok c =>
    if !c.State.Running then
      .error (.errMsg "You cannot attach to a stopped container, start it first")
    else if c.State.Paused then
      .error (.errMsg "You cannot attach to a paused container, unpause it first")
    else if c.State.Restarting then
      .error (.errMsg "You cannot attach to a restarting container, wait until it is running")
    else
      .ok c

/-- Embedding of getExitStatus: the select over the wait-result channel and
the error channel deciding the final reported outcome. -/
def getExitStatus (o : WaitOutcome) : Option AttachError :=
  match o with
  | .result r =>
    match r.Error with
    | some e => some (.errMsg e.Message)
    | none => if r.StatusCode ≠ 0 then some (.statusError r.StatusCode) else none
  | .err e => some e

/-- Modelled from the spec: resizeTtyTo is code of this repository not under
src; per the spec it issues one resize request with the given dimensions
against the out-of-band control channel, and failures are logged, non-fatal. -/
def resizeTtyTo (height width : Nat) : List Event :=
  [.resizeRequest height width]

/-- Modelled from the spec: MonitorTtySize is code of this repository not
under src; per the spec, after the initial deliberately perturbed resize it
resets the remote terminal back to the actual measured size and then
subscribes to terminal size-change notifications. -/
def MonitorTtySize (height width : Nat) : List Event :=
  [.resizeRequest height width, .monitorStart]

/-- Embedding of resizeTTY: reads the measured terminal size, issues one
resize request perturbed by one in both dimensions, then MonitorTtySize
resets to the actual size and keeps monitoring. -/
def resizeTTY (height width : Nat) : List Event :=
  resizeTtyTo (height + 1) (width + 1) ++ MonitorTtySize height width

/-- Embedding of RunAttach: issues the container wait on a
cancellation-stripped context, validates the target state, checks the tty,
resolves the detach keys, conditionally starts the signal forwarder on a
cancellation-stripped context with a deferred unsubscription, attaches,
re-validates the target state, conditionally resizes the tty, streams, and
reconciles the exit status. Returns the ordered effect trace and the result. -/
def RunAttach (env : AttachEnv) (opts : AttachOptions) : List Event × Option AttachError :=
  let waitCtx := Ctx.withoutCancel .session
  let t0 : List Event := [.containerWait waitCtx, .inspect]
  match inspectContainerAndCheckState env.inspect1 with
  | .error e => (t0, some e)
  | .ok c =>
    let t1 := t0 ++ [.checkTty]
    match env.checkTtyErr with
    | some e => (t1, some e)
    | none =>
      let detachKeys := env.configDetachKeys
      let detachKeys := if opts.DetachKeys ≠ "" then opts.DetachKeys else detachKeys
      let stdinAttached := !opts.NoStdin && c.Config.OpenStdin
      let proxyOn := opts.Proxy && !c.Config.Tty
      let t2 := t1 ++ (if proxyOn then [Event.startSignalForwarder (Ctx.withoutCancel .session)] else [])
      let deferStop : List Event := if proxyOn then [.stopCatch] else []
      let t3 := t2 ++ [.containerAttach .session detachKeys]
      match env.attachErr with
      | some e => (t3 ++ deferStop, some e)
      | none =>
        let t4 := t3 ++ [.inspect]
        match inspectContainerAndCheckState env.inspect2 with
        | .error e => (t4 ++ [.closeResp] ++ deferStop, some e)
        | .ok _ =>
          let t5 := t4 ++ (if c.Config.Tty && env.outIsTerminal then resizeTTY env.ttyHeight env.ttyWidth else [])
          let t6 := t5 ++ [.stream stdinAttached detachKeys .session]
          let res : Option AttachError :=
            match env.streamErr with
            | some e => if e = AttachError.canceled then getExitStatus env.waitOutcome else some e
            | none => getExitStatus env.waitOutcome
          (t6 ++ [.closeResp] ++ deferStop, res)

/-- Resize request recognizer over events. -/
def Event.isResize : Event → Bool
  | .resizeRequest _ _ => true
  | _ => false

/-- Stream start recognizer over events. -/
def Event.isStream : Event → Bool
  | .stream _ _ _ => true
  | _ => false

/-- Attach call recognizer over events. -/
def Event.isAttachCall : Event → Bool
  | .containerAttach _ _ => true
  | _ => false

/-- Helper: the detach keys the command resolves from the override and the
configured default. -/
def resolvedDetachKeys (env : AttachEnv) (opts : AttachOptions) : String :=
  if opts.DetachKeys ≠ "" then opts.DetachKeys else env.configDetachKeys

/-- Sample running container with stdin open and no tty. -/
def sampleContainer : InspectResponse := ⟨⟨true, false, false⟩, ⟨false, true⟩⟩

/-- Sample running container with a tty and stdin open. -/
def sampleTtyContainer : InspectResponse := ⟨⟨true, false, false⟩, ⟨true, true⟩⟩

/-- Sample stopped container. -/
def stoppedContainer : InspectResponse := ⟨⟨false, false, false⟩, ⟨false, true⟩⟩

/-- Sample environment in which every setup step succeeds, no tty. -/
def sampleEnv : AttachEnv :=
  ⟨.ok sampleContainer, .ok sampleContainer, none, "ctrl-p,ctrl-q", none, false, 24, 80,
    none, .result ⟨0, none⟩⟩

/-- Sample environment in which every setup step succeeds, with a tty and an
interactive local output of size (24,80). -/
def sampleTtyEnv : AttachEnv :=
  ⟨.ok sampleTtyContainer, .ok sampleTtyContainer, none, "ctrl-p,ctrl-q", none, true, 24, 80,
    none, .result ⟨0, none⟩⟩

/-- Sample environment in which streaming ends with the cancellation error
while the wait result carries exit status 2. -/
def sampleEnvCanceled : AttachEnv :=
  ⟨.ok sampleContainer, .ok sampleContainer, none, "ctrl-p,ctrl-q", none, false, 24, 80,
    some .canceled, .result ⟨2, none⟩⟩

/-- Sample options: stdin attached, signal proxying on, no override. -/
def sampleOpts : AttachOptions := ⟨false, true, ""⟩

example : getExitStatus (.result ⟨3, none⟩) = some (.statusError 3) := by decide
example : getExitStatus (.result ⟨3, some ⟨"boom"⟩⟩) = some (.errMsg "boom") := by decide
example : getExitStatus (.result ⟨0, none⟩) = none := by decide
example : getExitStatus (.err .canceled) = some .canceled := by decide

/-- C1: the final outcome of the exit reconciler is decided by whichever
channel resolves first: a wait result carrying a recorded error message is
reported as that message, otherwise a non-zero status code is reported as a
status error carrying exactly that code, otherwise success; an error channel
resolution is reported as that error. -/
theorem getExitStatus_decides_outcome (o : WaitOutcome) :
    (∀ r, o = .result r →
      ((∃ e, r.Error = some e ∧ getExitStatus o = some (.errMsg e.Message)) ∨
       (r.Error = none ∧ r.StatusCode ≠ 0 ∧ getExitStatus o = some (.statusError r.StatusCode)) ∨
       (r.Error = none ∧ r.StatusCode = 0 ∧ getExitStatus o = none))) ∧
    (∀ e, o = .err e → getExitStatus o = some e) := by
  constructor
  · rintro r rfl
    rcases hE : r.Error with _ | e
    · by_cases hs : r.StatusCode = 0
      · exact Or.inr (Or.inr ⟨rfl, hs, by simp [getExitStatus, hE, hs]⟩)
      · exact Or.inr (Or.inl ⟨rfl, hs, by simp [getExitStatus, hE, hs]⟩)
    · exact Or.inl ⟨e, rfl, by simp [getExitStatus, hE]⟩
  · rintro e rfl
    rfl

/-- C1 witness: concrete evaluation at a non-zero wait result and at an error
channel resolution. -/
theorem getExitStatus_decides_outcome_witness :
    getExitStatus (WaitOutcome.err (.api "watch failed")) = some (.api "watch failed") :=
  (getExitStatus_decides_outcome (WaitOutcome.err (.api "watch failed"))).2
    (.api "watch failed") rfl

/-- C2: in every invocation the container wait is issued, on a
cancellation-stripped context, as the very first effect of the session:
before the pre-flight validation (the first inspect call) and hence before
any attach or streaming effect. -/
theorem RunAttach_wait_started_first (env : AttachEnv) (opts : AttachOptions) :
    ∃ rest, (RunAttach env opts).1 =
      Event.containerWait (Ctx.withoutCancel .session) :: Event.inspect :: rest := by
  unfold RunAttach
  rcases h1 : inspectContainerAndCheckState env.inspect1 with e | c
  · exact ⟨[], rfl⟩
  · rcases h2 : env.checkTtyErr with _ | e
    · rcases h3 : env.attachErr with _ | e
      · rcases h4 : inspectContainerAndCheckState env.inspect2 with e2 | c2
        · simp
        · simp
      · simp
    · exact ⟨[.checkTty], rfl⟩

/-- Helper: trace and result of RunAttach when the attach call fails. -/
theorem RunAttach_eq_of_attachErr (env : AttachEnv) (opts : AttachOptions)
    (c : InspectResponse) (e : AttachError)
    (h1 : inspectContainerAndCheckState env.inspect1 = .ok c)
    (h2 : env.checkTtyErr = none)
    (h3 : env.attachErr = some e) :
    RunAttach env opts =
      ([Event.containerWait (Ctx.withoutCancel .session), .inspect, .checkTty] ++
        (if opts.Proxy && !c.Config.Tty then [Event.startSignalForwarder (Ctx.withoutCancel .session)] else []) ++
        [Event.containerAttach .session (resolvedDetachKeys env opts)] ++
        (if opts.Proxy && !c.Config.Tty then [Event.stopCatch] else []),
       some e) := by
  unfold RunAttach
  rw [h1, h2, h3]
  simp [resolvedDetachKeys]

/-- Helper: trace and result of RunAttach when the re-validation after the
attach call fails. -/
theorem RunAttach_eq_of_check2_err (env : AttachEnv) (opts : AttachOptions)
    (c : InspectResponse) (e : AttachError)
    (h1 : inspectContainerAndCheckState env.inspect1 = .ok c)
    (h2 : env.checkTtyErr = none)
    (h3 : env.attachErr = none)
    (h4 : inspectContainerAndCheckState env.inspect2 = .error e) :
    RunAttach env opts =
      ([Event.containerWait (Ctx.withoutCancel .session), .inspect, .checkTty] ++
        (if opts.Proxy && !c.Config.Tty then [Event.startSignalForwarder (Ctx.withoutCancel .session)] else []) ++
        [Event.containerAttach .session (resolvedDetachKeys env opts), .inspect, .closeResp] ++
        (if opts.Proxy && !c.Config.Tty then [Event.stopCatch] else []),
       some e) := by
  unfold RunAttach
  rw [h1, h2, h3, h4]
  simp [resolvedDetachKeys]

/-- Helper: trace and result of RunAttach when every setup step succeeds and
the session reaches streaming. -/
theorem RunAttach_eq_ok (env : AttachEnv) (opts : AttachOptions)
    (c c2 : InspectResponse)
    (h1 : inspectContainerAndCheckState env.inspect1 = .ok c)
    (h2 : env.checkTtyErr = none)
    (h3 : env.attachErr = none)
    (h4 : inspectContainerAndCheckState env.inspect2 = .ok c2) :
    RunAttach env opts =
      ([Event.containerWait (Ctx.withoutCancel .session), .inspect, .checkTty] ++
        (if opts.Proxy && !c.Config.Tty then [Event.startSignalForwarder (Ctx.withoutCancel .session)] else []) ++
        [Event.containerAttach .session (resolvedDetachKeys env opts), .inspect] ++
        (if c.Config.Tty && env.outIsTerminal then resizeTTY env.ttyHeight env.ttyWidth else []) ++
        [Event.stream (!opts.NoStdin && c.Config.OpenStdin) (resolvedDetachKeys env opts) .session,
         .closeResp] ++
        (if opts.Proxy && !c.Config.Tty then [Event.stopCatch] else []),
       match env.streamErr with
       | some e => if e = AttachError.canceled then getExitStatus env.waitOutcome else some e
       | none => getExitStatus env.waitOutcome) := by
  unfold RunAttach
  rw [h1, h2, h3, h4]
  simp [resolvedDetachKeys]

/-- C3: when streaming ends with the cancellation error the session is not
reported as failed with that error; it proceeds to report the reconciled
exit status; any other streamer error is surfaced to the caller. -/
theorem RunAttach_cancellation_is_clean (env : AttachEnv) (opts : AttachOptions)
    (c c2 : InspectResponse)
    (h1 : inspectContainerAndCheckState env.inspect1 = .ok c)
    (h2 : env.checkTtyErr = none)
    (h3 : env.attachErr = none)
    (h4 : inspectContainerAndCheckState env.inspect2 = .ok c2) :
    (env.streamErr = some .canceled →
      (RunAttach env opts).2 = getExitStatus env.waitOutcome) ∧
    (∀ e, env.streamErr = some e → e ≠ .canceled →
      (RunAttach env opts).2 = some e) := by
  rw [RunAttach_eq_ok env opts c c2 h1 h2 h3 h4]
  constructor
  · intro h5
    simp [h5]
  · intro e h5 hne
    simp [h5, hne]

/-- C3 witness: concrete session where streaming was cancelled and the wait
result carries status 2; the reported outcome is the reconciled status. -/
theorem RunAttach_cancellation_is_clean_witness :
    (RunAttach sampleEnvCanceled sampleOpts).2 = getExitStatus sampleEnvCanceled.waitOutcome :=
  (RunAttach_cancellation_is_clean sampleEnvCanceled sampleOpts sampleContainer sampleContainer
    rfl rfl rfl rfl).1 rfl

/-- C4: the pre-flight validation returns a distinct descriptive error for a
stopped, a paused and a restarting target and succeeds with the inspected
container otherwise; when the first validation fails, RunAttach returns that
error and the trace contains no attach call and no stream start. -/
theorem inspect_validation_gates_session (c : InspectResponse)
    (env : AttachEnv) (opts : AttachOptions) :
    (c.State.Running = false →
      inspectContainerAndCheckState (.ok c) =
        .error (.errMsg "You cannot attach to a stopped container, start it first")) ∧
    (c.State.Running = true → c.State.Paused = true →
      inspectContainerAndCheckState (.ok c) =
        .error (.errMsg "You cannot attach to a paused container, unpause it first")) ∧
    (c.State.Running = true → c.State.Paused = false → c.State.Restarting = true →
      inspectContainerAndCheckState (.ok c) =
        .error (.errMsg "You cannot attach to a restarting container, wait until it is running")) ∧
    (c.State.Running = true → c.State.Paused = false → c.State.Restarting = false →
      inspectContainerAndCheckState (.ok c) = .ok c) ∧
    ((AttachError.errMsg "You cannot attach to a stopped container, start it first" ≠
        .errMsg "You cannot attach to a paused container, unpause it first") ∧
      (AttachError.errMsg "You cannot attach to a stopped container, start it first" ≠
        .errMsg "You cannot attach to a restarting container, wait until it is running") ∧
      (AttachError.errMsg "You cannot attach to a paused container, unpause it first" ≠
        .errMsg "You cannot attach to a restarting container, wait until it is running")) ∧
    (∀ e, inspectContainerAndCheckState env.inspect1 = .error e →
      (RunAttach env opts).2 = some e ∧
      ∀ ev ∈ (RunAttach env opts).1,
        (∀ ctx dk, ev ≠ .containerAttach ctx dk) ∧
        (∀ b dk ctx, ev ≠ .stream b dk ctx)) := by
  refine ⟨?_, ?_, ?_, ?_, ⟨by decide, by decide, by decide⟩, ?_⟩
  · intro h
    simp [inspectContainerAndCheckState, h]
  · intro h hp
    simp [inspectContainerAndCheckState, h, hp]
  · intro h hp hr
    simp [inspectContainerAndCheckState, h, hp, hr]
  · intro h hp hr
    simp [inspectContainerAndCheckState, h, hp, hr]
  · intro e he
    have hR : RunAttach env opts =
        ([.containerWait (Ctx.withoutCancel .session), .inspect], some e) := by
      unfold RunAttach
      rw [he]
    rw [hR]
    refine ⟨rfl, ?_⟩
    intro ev hev
    simp only [List.mem_cons, List.not_mem_nil, or_false] at hev
    rcases hev with rfl | rfl <;> refine ⟨?_, ?_⟩ <;> intros <;> simp

/-- C4 witness: a stopped target yields the stopped-container error, and a
session whose first validation fails reports it with no attach in the trace. -/
theorem inspect_validation_gates_session_witness :
    inspectContainerAndCheckState (.ok stoppedContainer) =
      .error (.errMsg "You cannot attach to a stopped container, start it first") :=
  (inspect_validation_gates_session stoppedContainer sampleEnv sampleOpts).1 rfl

/-- C5: once the attach call succeeds, the very next effect is a second
inspect running the same state validation, and if this re-validation fails
the session returns that error with no stream start in the trace. -/
theorem RunAttach_revalidates_after_attach (env : AttachEnv) (opts : AttachOptions)
    (c : InspectResponse)
    (h1 : inspectContainerAndCheckState env.inspect1 = .ok c)
    (h2 : env.checkTtyErr = none)
    (h3 : env.attachErr = none) :
    (∃ pre post, (RunAttach env opts).1 =
      pre ++ Event.containerAttach .session (resolvedDetachKeys env opts) ::
        Event.inspect :: post) ∧
    (∀ e, inspectContainerAndCheckState env.inspect2 = .error e →
      (RunAttach env opts).2 = some e ∧
      ∀ b dk ctx, Event.stream b dk ctx ∉ (RunAttach env opts).1) := by
  constructor
  · rcases h4 : inspectContainerAndCheckState env.inspect2 with e | c2
    · rw [RunAttach_eq_of_check2_err env opts c e h1 h2 h3 h4]
      refine ⟨[.containerWait (Ctx.withoutCancel .session), .inspect, .checkTty] ++
        (if opts.Proxy && !c.Config.Tty then [Event.startSignalForwarder (Ctx.withoutCancel .session)] else []),
        [.closeResp] ++ (if opts.Proxy && !c.Config.Tty then [Event.stopCatch] else []), ?_⟩
      simp
    · rw [RunAttach_eq_ok env opts c c2 h1 h2 h3 h4]
      refine ⟨[.containerWait (Ctx.withoutCancel .session), .inspect, .checkTty] ++
        (if opts.Proxy && !c.Config.Tty then [Event.startSignalForwarder (Ctx.withoutCancel .session)] else []),
        (if c.Config.Tty && env.outIsTerminal then resizeTTY env.ttyHeight env.ttyWidth else []) ++
          [Event.stream (!opts.NoStdin && c.Config.OpenStdin) (resolvedDetachKeys env opts) .session,
           .closeResp] ++
          (if opts.Proxy && !c.Config.Tty then [Event.stopCatch] else []), ?_⟩
      simp
  · intro e h4
    rw [RunAttach_eq_of_check2_err env opts c e h1 h2 h3 h4]
    refine ⟨rfl, ?_⟩
    intro b dk ctx
    cases hP : (opts.Proxy && !c.Config.Tty) <;> simp [hP]

/-- C5 witness: concrete session whose re-validation finds the target gone;
the session reports that error and never streams. -/
theorem RunAttach_revalidates_after_attach_witness :
    (RunAttach ⟨.ok sampleContainer, .error (.api "No such container"), none, "cfg", none,
        false, 24, 80, none, .result ⟨0, none⟩⟩ sampleOpts).2 =
      some (.api "No such container") :=
  ((RunAttach_revalidates_after_attach ⟨.ok sampleContainer,
      .error (.api "No such container"), none, "cfg", none, false, 24, 80, none,
      .result ⟨0, none⟩⟩ sampleOpts sampleContainer rfl rfl rfl).2
    (.api "No such container") rfl).1

/-- C6: the resize procedure runs exactly when the session has a tty and the
local output is an interactive terminal, and then the trace carries exactly
two resize requests in order: the size perturbed by one in both dimensions,
then the measured size. -/
theorem RunAttach_resize_on_start (env : AttachEnv) (opts : AttachOptions)
    (c c2 : InspectResponse)
    (h1 : inspectContainerAndCheckState env.inspect1 = .ok c)
    (h2 : env.checkTtyErr = none)
    (h3 : env.attachErr = none)
    (h4 : inspectContainerAndCheckState env.inspect2 = .ok c2) :
    ((c.Config.Tty && env.outIsTerminal) = true →
      (RunAttach env opts).1.filter Event.isResize =
        [.resizeRequest (env.ttyHeight + 1) (env.ttyWidth + 1),
         .resizeRequest env.ttyHeight env.ttyWidth]) ∧
    ((c.Config.Tty && env.outIsTerminal) = false →
      (RunAttach env opts).1.filter Event.isResize = []) := by
  rw [RunAttach_eq_ok env opts c c2 h1 h2 h3 h4]
  constructor <;> intro hT <;>
    cases hP : (opts.Proxy && !c.Config.Tty) <;>
      simp [hT, hP, resizeTTY, resizeTtyTo, MonitorTtySize, Event.isResize]

/-- C6 witness: a tty session with an interactive output of size (24,80)
issues exactly the resize requests (25,81) then (24,80). -/
theorem RunAttach_resize_on_start_witness :
    (RunAttach sampleTtyEnv sampleOpts).1.filter Event.isResize =
      [.resizeRequest 25 81, .resizeRequest 24 80] :=
  (RunAttach_resize_on_start sampleTtyEnv sampleOpts sampleTtyContainer sampleTtyContainer
    rfl rfl rfl rfl).1 rfl

/-- C7: the signal forwarder is started exactly when proxying is enabled and
the session has no tty; when started it runs on a cancellation-stripped
context, and the signal subscription release is the last effect of the
session; when not started, neither a forwarder start nor a subscription
release appears in the trace. -/
theorem RunAttach_signal_forwarder_gating (env : AttachEnv) (opts : AttachOptions)
    (c : InspectResponse)
    (h1 : inspectContainerAndCheckState env.inspect1 = .ok c)
    (h2 : env.checkTtyErr = none) :
    ((opts.Proxy && !c.Config.Tty) = true →
      Event.startSignalForwarder (Ctx.withoutCancel .session) ∈ (RunAttach env opts).1 ∧
      ∃ pre, (RunAttach env opts).1 = pre ++ [Event.stopCatch]) ∧
    ((opts.Proxy && !c.Config.Tty) = false →
      (∀ ctx, Event.startSignalForwarder ctx ∉ (RunAttach env opts).1) ∧
      Event.stopCatch ∉ (RunAttach env opts).1) := by
  rcases h3 : env.attachErr with _ | e
  · rcases h4 : inspectContainerAndCheckState env.inspect2 with e | c2
    · rw [RunAttach_eq_of_check2_err env opts c e h1 h2 h3 h4]
      constructor <;> intro hP
      · refine ⟨by simp [hP], ?_⟩
        exact ⟨[.containerWait (Ctx.withoutCancel .session), .inspect, .checkTty,
          .startSignalForwarder (Ctx.withoutCancel .session),
          .containerAttach .session (resolvedDetachKeys env opts), .inspect, .closeResp],
          by simp [hP]⟩
      · refine ⟨?_, by simp [hP]⟩
        intro ctx
        simp [hP]
    · rw [RunAttach_eq_ok env opts c c2 h1 h2 h3 h4]
      constructor <;> intro hP
      · refine ⟨by simp [hP], ?_⟩
        exact ⟨[.containerWait (Ctx.withoutCancel .session), .inspect, .checkTty,
          .startSignalForwarder (Ctx.withoutCancel .session),
          .containerAttach .session (resolvedDetachKeys env opts), .inspect] ++
          (if c.Config.Tty && env.outIsTerminal then resizeTTY env.ttyHeight env.ttyWidth else []) ++
          [Event.stream (!opts.NoStdin && c.Config.OpenStdin) (resolvedDetachKeys env opts) .session,
           .closeResp],
          by simp [hP]⟩
      · refine ⟨?_, ?_⟩
        · intro ctx
          cases hT : (c.Config.Tty && env.outIsTerminal) <;>
            simp [hP, hT, resizeTTY, resizeTtyTo, MonitorTtySize]
        · cases hT : (c.Config.Tty && env.outIsTerminal) <;>
            simp [hP, hT, resizeTTY, resizeTtyTo, MonitorTtySize]
  · rw [RunAttach_eq_of_attachErr env opts c e h1 h2 h3]
    constructor <;> intro hP
    · refine ⟨by simp [hP], ?_⟩
      exact ⟨[.containerWait (Ctx.withoutCancel .session), .inspect, .checkTty,
        .startSignalForwarder (Ctx.withoutCancel .session),
        .containerAttach .session (resolvedDetachKeys env opts)],
        by simp [hP]⟩
    · refine ⟨?_, by simp [hP]⟩
      intro ctx
      simp [hP]

/-- C7 witness: a proxying non-tty session starts the forwarder on the
cancellation-stripped context and releases the subscription last. -/
theorem RunAttach_signal_forwarder_gating_witness :
    Event.startSignalForwarder (Ctx.withoutCancel .session) ∈ (RunAttach sampleEnv sampleOpts).1 ∧
    ∃ pre, (RunAttach sampleEnv sampleOpts).1 = pre ++ [Event.stopCatch] :=
  (RunAttach_signal_forwarder_gating sampleEnv sampleOpts sampleContainer rfl rfl).1 rfl

/-- C8: the streamer is started exactly once, and it is handed a local input
stream precisely when the no-stdin flag is unset and the target has its
stdin open; otherwise the input stream is absent. -/
theorem RunAttach_stream_input_gating (env : AttachEnv) (opts : AttachOptions)
    (c c2 : InspectResponse)
    (h1 : inspectContainerAndCheckState env.inspect1 = .ok c)
    (h2 : env.checkTtyErr = none)
    (h3 : env.attachErr = none)
    (h4 : inspectContainerAndCheckState env.inspect2 = .ok c2) :
    (RunAttach env opts).1.filter Event.isStream =
      [.stream (!opts.NoStdin && c.Config.OpenStdin) (resolvedDetachKeys env opts) .session] := by
  rw [RunAttach_eq_ok env opts c c2 h1 h2 h3 h4]
  cases hP : (opts.Proxy && !c.Config.Tty) <;>
    cases hT : (c.Config.Tty && env.outIsTerminal) <;>
      simp [hP, hT, resizeTTY, resizeTtyTo, MonitorTtySize, Event.isStream]

/-- C8 witness: with stdin kept and the target's stdin open the single
streamer start carries an input stream. -/
theorem RunAttach_stream_input_gating_witness :
    (RunAttach sampleEnv sampleOpts).1.filter Event.isStream =
      [.stream true (resolvedDetachKeys sampleEnv sampleOpts) .session] :=
  RunAttach_stream_input_gating sampleEnv sampleOpts sampleContainer sampleContainer
    rfl rfl rfl rfl

/-- C9: the detach key sequence handed to the attach call and to the streamer
is the caller override when it is non-empty and otherwise the configured
default from the configuration file. -/
theorem RunAttach_detach_keys_resolution (env : AttachEnv) (opts : AttachOptions)
    (c c2 : InspectResponse)
    (h1 : inspectContainerAndCheckState env.inspect1 = .ok c)
    (h2 : env.checkTtyErr = none)
    (h3 : env.attachErr = none)
    (h4 : inspectContainerAndCheckState env.inspect2 = .ok c2) :
    (opts.DetachKeys ≠ "" →
      (RunAttach env opts).1.filter Event.isAttachCall =
        [.containerAttach .session opts.DetachKeys] ∧
      (RunAttach env opts).1.filter Event.isStream =
        [.stream (!opts.NoStdin && c.Config.OpenStdin) opts.DetachKeys .session]) ∧
    (opts.DetachKeys = "" →
      (RunAttach env opts).1.filter Event.isAttachCall =
        [.containerAttach .session env.configDetachKeys] ∧
      (RunAttach env opts).1.filter Event.isStream =
        [.stream (!opts.NoStdin && c.Config.OpenStdin) env.configDetachKeys .session]) := by
  rw [RunAttach_eq_ok env opts c c2 h1 h2 h3 h4]
  constructor <;> intro hK <;>
    cases hP : (opts.Proxy && !c.Config.Tty) <;>
      cases hT : (c.Config.Tty && env.outIsTerminal) <;>
        simp [hP, hT, hK, resolvedDetachKeys, resizeTTY, resizeTtyTo, MonitorTtySize,
          Event.isStream, Event.isAttachCall]

/-- C9 witness: with an empty override the configured default is handed to
the attach call. -/
theorem RunAttach_detach_keys_resolution_witness :
    (RunAttach sampleEnv sampleOpts).1.filter Event.isAttachCall =
      [.containerAttach .session sampleEnv.configDetachKeys] :=
  ((RunAttach_detach_keys_resolution sampleEnv sampleOpts sampleContainer sampleContainer
    rfl rfl rfl rfl).2 rfl).1

/-- C10: the container wait is issued on a context stripped of the session
cancellation signal, and when streaming ends with the cancellation error the
wait outcome still decides the final reported result. -/
theorem RunAttach_wait_survives_cancellation (env : AttachEnv) (opts : AttachOptions)
    (c c2 : InspectResponse)
    (h1 : inspectContainerAndCheckState env.inspect1 = .ok c)
    (h2 : env.checkTtyErr = none)
    (h3 : env.attachErr = none)
    (h4 : inspectContainerAndCheckState env.inspect2 = .ok c2)
    (h5 : env.streamErr = some .canceled) :
    (∀ ctx, Event.containerWait ctx ∈ (RunAttach env opts).1 →
      ctx = Ctx.withoutCancel .session) ∧
    (RunAttach env opts).2 = getExitStatus env.waitOutcome := by
  rw [RunAttach_eq_ok env opts c c2 h1 h2 h3 h4]
  constructor
  · intro ctx
    cases hP : (opts.Proxy && !c.Config.Tty) <;>
      cases hT : (c.Config.Tty && env.outIsTerminal) <;>
        simp [hP, hT, resizeTTY, resizeTtyTo, MonitorTtySize, Ctx.withoutCancel]
  · simp [h5]

/-- C10 witness: after a cancelled streaming phase the reported result is the
reconciled wait outcome, here the status error with exit status 2. -/
theorem RunAttach_wait_survives_cancellation_witness :
    (RunAttach sampleEnvCanceled sampleOpts).2 = some (.statusError 2) := by
  rw [(RunAttach_wait_survives_cancellation sampleEnvCanceled sampleOpts sampleContainer
    sampleContainer rfl rfl rfl rfl rfl).2]
  rfl
